import Mathlib

/-!
Shallow embedding of the docker-prom exporter (src/main.go) and proofs about
its collection cycle, its publish modes and its file writer.

The program keeps one Prometheus gauge vector `docker_container_image_info`
with labels `container_name`, `image_id`, `image_repo`.  Every cycle it lists
the containers, resets the gauge vector, and sets one child per container to
`1`; depending on configuration it either serves the registry over HTTP on
`/metrics` or renders it into `<dir>/docker_metrics.prom`.

The embedding models the gauge vector and the written filesystem as
association lists with at-most-one-entry-per-key semantics, the Docker client
as an environment recording the outcome of each call, and the Go panic of the
unguarded `container.Names[0]` index as `Option.none`.
-/

namespace DockerProm

/-- Value held by one gauge child; the program only ever calls `Set(1)`. -/
abbrev MetricValue := ℚ

/-- Label triple of the `docker_container_image_info` gauge vector
(src/main.go line 121). -/
structure Labels where
  container_name : String
  image_id : String
  image_repo : String

deriving instance DecidableEq for Labels

/-- The gauge vector: a finite map from label combinations to values, with at
most one entry per combination. -/
abbrev GaugeVec := List (Labels × MetricValue)

/-- `GaugeVec.Reset` deletes every child (src/main.go line 162). -/
def GaugeVec.reset (_g : GaugeVec) : GaugeVec := []

/-- `WithLabelValues(...).Set v`: create or overwrite the child for `l`. -/
def GaugeVec.set (g : GaugeVec) (l : Labels) (v : MetricValue) : GaugeVec :=
  (g.filter fun p => !decide (p.1 = l)) ++ [(l, v)]

/-- The label combinations currently present in the gauge vector. -/
def GaugeVec.keys (g : GaugeVec) : List Labels := g.map Prod.fst

/-- Current value of the child for `l`, if present. -/
def GaugeVec.getVal (g : GaugeVec) (l : Labels) : Option MetricValue :=
  (g.find? fun p => decide (p.1 = l)).map Prod.snd

/-- A container summary as returned by `ContainerList`: its name list, the id
of its image and the image reference used for inspection. -/
structure Container where
  Names : List String
  ImageID : String
  Image : String

deriving instance DecidableEq for Container

/-- The part of an `ImageInspectWithRaw` result the program reads. -/
structure ImageInspect where
  RepoTags : List String

deriving instance DecidableEq for ImageInspect

/-- Outcomes of the Docker client calls during one cycle: `containerList` is
`none` when the listing call errors, and `imageInspect r` is `none` when
inspecting image reference `r` errors. -/
structure DockerEnv where
  containerList : Option (List Container)
  imageInspect : String → Option ImageInspect

/-- Repo label derivation (src/main.go lines 177-180): the first repo tag when
any exist, else the literal `"unknown"`. -/
def imageRepoOf (image : ImageInspect) : String :=
  if h : 0 < image.RepoTags.length then image.RepoTags.get ⟨0, h⟩ else "unknown"

/-- One iteration of the collection loop body (src/main.go lines 165-184):
read `container.Names[0]` (a Go panic when the list is empty, modelled as
`none`), inspect the image (on error log and `continue`, leaving the gauge
untouched), derive the repo label and set the child to `1`. -/
def collectStep (env : DockerEnv) (g : GaugeVec) (c : Container) : Option GaugeVec :=
  match c.Names.head? with
  | none => none
  | some containerName =>
    match env.imageInspect c.Image with
    | none => some g
    | some image => some (g.set ⟨containerName, c.ImageID, imageRepoOf image⟩ 1)

/-- The `for _, container := range containers` loop of `collectDockerMetrics`,
threading the gauge vector; `none` propagates the panic. -/
def collectLoop (env : DockerEnv) : GaugeVec → List Container → Option GaugeVec
  | g, [] => some g
  | g, c :: cs =>
    match collectStep env g c with
    | none => none
    | some g1 => collectLoop env g1 cs

/-- `collectDockerMetrics` (src/main.go lines 151-185): list the containers
(on error log and return, leaving the gauge vector untouched), reset the
gauge vector, then repopulate it from the listing. -/
def collectDockerMetrics (env : DockerEnv) (g : GaugeVec) : Option GaugeVec :=
  match env.containerList with
  | none => some g
  | some containers => collectLoop env g.reset containers

/-- The label combination a container contributes this cycle, when its name
list is non-empty and its image inspection succeeds. -/
def labelOf (env : DockerEnv) (c : Container) : Option Labels :=
  match c.Names.head? with
  | none => none
  | some n =>
    match env.imageInspect c.Image with
    | none => none
    | some image => some ⟨n, c.ImageID, imageRepoOf image⟩

/-- The written filesystem: a finite map from paths to file contents. -/
abbrev FsState := List (String × String)

/-- Create or overwrite the file at `path` with `content`. -/
def FsState.setFile (fs : FsState) (path content : String) : FsState :=
  (fs.filter fun p => !decide (p.1 = path)) ++ [(path, content)]

/-- Content of the file at `path`, if it exists. -/
def FsState.getFile (fs : FsState) (path : String) : Option String :=
  (fs.find? fun p => decide (p.1 = path)).map Prod.snd

/-- `filepath.Join(dir, file)` for the shapes the program uses. -/
def joinPath (dir file : String) : String := dir ++ "/" ++ file

/-- One sample line of the text exposition of the gauge family. -/
def sampleLine (p : Labels × MetricValue) : String :=
  "docker_container_image_info\x7bcontainer_name=\"" ++ p.1.container_name ++
    "\",image_id=\"" ++ p.1.image_id ++
    "\",image_repo=\"" ++ p.1.image_repo ++ "\"\x7d " ++ toString p.2 ++ "\n"

/-- Modelled from the spec: the expfmt `text/plain` encoder (an external
library, consumed as a black box) renders the gauge family as its HELP and
TYPE header followed by one sample line per label combination. -/
def expositionText (g : GaugeVec) : String :=
  "# HELP docker_container_image_info Docker container image information\n" ++
    "# TYPE docker_container_image_info gauge\n" ++
    String.join (g.map sampleLine)

/-- Modelled from the spec: in HTTP mode the promhttp handler (an external
library, consumed as a black box) serves the registry's gauge family rendered
in the same text exposition format. -/
def httpBody (g : GaugeVec) : String := expositionText g

/-- The process state the driver loop threads: the in-memory gauge vector and
the filesystem the file publisher writes into. -/
structure ProcState where
  gauge : GaugeVec
  fs : FsState

deriving instance DecidableEq for ProcState

/-- Outcomes of the steps of `writeMetricsToFile` that depend on the outside
world: registry registration, opening the file, gathering, encoding. -/
structure WriteEnv where
  registerOk : Bool
  openOk : Bool
  gatherOk : Bool
  encodeOk : Bool

deriving instance DecidableEq for WriteEnv

/-- `writeMetricsToFile` (src/main.go lines 187-224): register the gauge in a
fresh registry, open `<dir>/docker_metrics.prom` with `O_TRUNC` (truncating
it immediately), gather and encode into the file.  Each failing step logs,
returns an error (`false`) and stops; the gauge vector is only read. -/
def writeMetricsToFile (wenv : WriteEnv) (metricsFilePath : String) (s : ProcState) :
    ProcState × Bool :=
  if wenv.registerOk = false then (s, false)
  else if wenv.openOk = false then (s, false)
  else if wenv.gatherOk = false then
    ({ s with fs := s.fs.setFile (joinPath metricsFilePath "docker_metrics.prom") "" }, false)
  else if wenv.encodeOk = false then
    ({ s with fs := s.fs.setFile (joinPath metricsFilePath "docker_metrics.prom") "" }, false)
  else
    ({ s with
        fs := s.fs.setFile (joinPath metricsFilePath "docker_metrics.prom")
          (expositionText s.gauge) },
      true)

/-- The configuration flags of `main` the publish decision reads
(src/main.go lines 227-229). -/
structure Config where
  port : String
  metricsFilePath : String

deriving instance DecidableEq for Config

/-- Flag defaults (src/main.go lines 227-228). -/
def defaultConfig : Config := { port := "8000", metricsFilePath := "" }

/-- Path of the HTTP handler registered in HTTP mode (src/main.go line 252). -/
def metricsEndpointPath : String := "/metrics"

/-- The publish mode a process instance runs in. -/
inductive Mode where
  | http (port : String)
  | file (dir : String)

deriving instance DecidableEq for Mode

/-- Startup publish-mode decision (src/main.go lines 249-261): an empty
`metricsFilePath` starts the HTTP listener on the configured port, a
non-empty one skips the listener entirely and selects file mode. -/
def selectMode (cfg : Config) : Mode :=
  if cfg.metricsFilePath = "" then Mode.http cfg.port else Mode.file cfg.metricsFilePath

/-- One iteration of the driver loop (src/main.go lines 264-274): collect,
then write the file only when `metricsFilePath` is non-empty.  The `Bool`
reports whether the iteration finished without a publish error; `none`
propagates a collection panic. -/
def driverCycle (cfg : Config) (env : DockerEnv) (wenv : WriteEnv) (s : ProcState) :
    Option (ProcState × Bool) :=
  match collectDockerMetrics env s.gauge with
  | none => none
  | some g1 =>
    let s1 : ProcState := { s with gauge := g1 }
    if cfg.metricsFilePath = "" then some (s1, true)
    else some (writeMetricsToFile wenv cfg.metricsFilePath s1)

/-- Finitely many iterations of the driver loop, one environment per cycle.
The loop itself never stops; publish errors are logged and dropped. -/
def driverRun (cfg : Config) : List (DockerEnv × WriteEnv) → ProcState → Option ProcState
  | [], s => some s
  | (env, wenv) :: rest, s =>
    match driverCycle cfg env wenv s with
    | none => none
    | some (s1, _) => driverRun cfg rest s1

/-! Association-list facts about the gauge vector and the filesystem. -/

/-- Membership in the keys after a `set`: the written combination plus the
previous ones. -/
theorem GaugeVec.mem_keys_set (g : GaugeVec) (l l' : Labels) (v : MetricValue) :
    l' ∈ (g.set l v).keys ↔ l' = l ∨ l' ∈ g.keys := by
  simp only [GaugeVec.set, GaugeVec.keys, List.map_append, List.mem_append, List.mem_map,
    List.mem_filter, List.map_cons, List.map_nil, List.mem_singleton,
    Bool.not_eq_true', decide_eq_false_iff_not]
  constructor
  · rintro (⟨p, ⟨hp, _⟩, rfl⟩ | h)
    · exact Or.inr ⟨p, hp, rfl⟩
    · exact Or.inl h
  · rintro (rfl | ⟨p, hp, rfl⟩)
    · exact Or.inr rfl
    · by_cases hpl : p.1 = l
      · exact Or.inr hpl
      · exact Or.inl ⟨p, ⟨hp, hpl⟩, rfl⟩

/-- Every entry after a `set` is either an old entry or the written one. -/
theorem GaugeVec.mem_set_elim {g : GaugeVec} {l : Labels} {v : MetricValue}
    {p : Labels × MetricValue} (hp : p ∈ g.set l v) : p ∈ g ∨ p = (l, v) := by
  simp only [GaugeVec.set, List.mem_append, List.mem_filter, List.mem_singleton] at hp
  tauto

/-- `set` keeps the keys duplicate-free. -/
theorem GaugeVec.keys_nodup_set {g : GaugeVec} (h : g.keys.Nodup) (l : Labels)
    (v : MetricValue) : (g.set l v).keys.Nodup := by
  simp only [GaugeVec.set, GaugeVec.keys, List.map_append, List.map_cons, List.map_nil]
  refine List.Nodup.append ?_ (List.nodup_singleton l) ?_
  · exact List.Nodup.sublist (List.Sublist.map Prod.fst (List.filter_sublist g)) h
  · intro a ha hal
    simp only [List.mem_singleton] at hal
    subst hal
    simp only [List.mem_map, List.mem_filter, Bool.not_eq_true', decide_eq_false_iff_not] at ha
    obtain ⟨p, ⟨_, hne⟩, rfl⟩ := ha
    exact hne rfl

/-- When every entry carries value 1, a present combination reads back as 1. -/
theorem GaugeVec.getVal_eq_one {g : GaugeVec} (hv : ∀ p ∈ g, p.2 = 1) {l : Labels}
    (hl : l ∈ g.keys) : g.getVal l = some 1 := by
  obtain ⟨p, hp, rfl⟩ := List.mem_map.mp hl
  have hsome : (g.find? fun q => decide (q.1 = p.1)).isSome := by
    rw [List.find?_isSome]
    exact ⟨p, hp, by simp⟩
  obtain ⟨q, hq⟩ := Option.isSome_iff_exists.mp hsome
  have hqm := List.mem_of_find?_eq_some hq
  have hq1 := hv q hqm
  simp [GaugeVec.getVal, hq, hq1]

/-- Reading the freshly written file returns the written content. -/
theorem FsState.getFile_setFile_self (fs : FsState) (path content : String) :
    (fs.setFile path content).getFile path = some content := by
  have hnone :
      (fs.filter fun p => !decide (p.1 = path)).find? (fun p => decide (p.1 = path)) = none := by
    rw [List.find?_eq_none]
    intro x hx
    simp only [List.mem_filter, Bool.not_eq_true', decide_eq_false_iff_not] at hx
    simp [hx.2]
  simp [FsState.setFile, FsState.getFile, List.find?_append, hnone]

/-- Filtering out one key does not change lookups of a different key. -/
theorem find_filter_other_key (fs : List (String × String)) (path p : String)
    (hp : p ≠ path) :
    ((fs.filter fun q => !decide (q.1 = path)).find? fun q => decide (q.1 = p)) =
      fs.find? fun q => decide (q.1 = p) := by
  induction fs with
  | nil => rfl
  | cons a fs ih =>
    rw [List.filter_cons]
    by_cases ha : a.1 = path
    · rw [if_neg (by simp [ha]), ih,
        List.find?_cons_of_neg fs (by simp [ha, Ne.symm hp])]
    · rw [if_pos (by simp [ha])]
      by_cases hap : a.1 = p
      · rw [List.find?_cons_of_pos _ (by simp [hap]),
          List.find?_cons_of_pos _ (by simp [hap])]
      · rw [List.find?_cons_of_neg _ (by simp [hap]),
          List.find?_cons_of_neg _ (by simp [hap]), ih]

/-- Writing one file does not change the content of any other path. -/
theorem FsState.getFile_setFile_other (fs : FsState) (path content p : String)
    (hp : p ≠ path) : (fs.setFile path content).getFile p = fs.getFile p := by
  have h2 : ([(path, content)].find? fun q => decide (q.1 = p)) = none := by
    simp [Ne.symm hp]
  simp only [FsState.setFile, FsState.getFile, List.find?_append,
    find_filter_other_key fs path p hp, h2, Option.or_none]

/-! Facts about the collection loop. -/

/-- A step that returns a gauge has a container with a non-empty name list and
either skipped the container (inspection failed) or wrote its combination. -/
theorem collectStep_some_cases {env : DockerEnv} {g : GaugeVec} {c : Container}
    {g1 : GaugeVec} (h : collectStep env g c = some g1) :
    c.Names ≠ [] ∧
      ((labelOf env c = none ∧ g1 = g) ∨ ∃ l, labelOf env c = some l ∧ g1 = g.set l 1) := by
  unfold collectStep at h
  cases hn : c.Names.head? with
  | none => rw [hn] at h; cases h
  | some n =>
    rw [hn] at h
    have hne : c.Names ≠ [] := by
      intro he
      rw [he] at hn
      cases hn
    refine ⟨hne, ?_⟩
    cases hi : env.imageInspect c.Image with
    | none =>
      rw [hi] at h
      injection h with h
      exact Or.inl ⟨by unfold labelOf; rw [hn, hi], h.symm⟩
    | some image =>
      rw [hi] at h
      injection h with h
      exact Or.inr ⟨⟨n, c.ImageID, imageRepoOf image⟩, by unfold labelOf; rw [hn, hi], h.symm⟩

/-- Characterization of a completed collection loop: final keys are the
starting keys plus the combinations of the successfully inspected containers;
value 1 and duplicate-freedom are preserved. -/
theorem collectLoop_some_spec (env : DockerEnv) (cs : List Container) :
    ∀ g g' : GaugeVec, collectLoop env g cs = some g' →
      (∀ l, l ∈ g'.keys ↔ (l ∈ g.keys ∨ ∃ c ∈ cs, labelOf env c = some l)) ∧
      ((∀ p ∈ g, p.2 = 1) → ∀ p ∈ g', p.2 = 1) ∧
      (g.keys.Nodup → g'.keys.Nodup) := by
  induction cs with
  | nil =>
    intro g g' h
    simp only [collectLoop] at h
    injection h with h
    subst h
    refine ⟨fun l => ?_, fun hv => hv, fun hn => hn⟩
    simp
  | cons c cs ih =>
    intro g g' h
    simp only [collectLoop] at h
    cases hstep : collectStep env g c with
    | none => rw [hstep] at h; cases h
    | some g1 =>
      rw [hstep] at h
      obtain ⟨hmem, hval, hnd⟩ := ih g1 g' h
      obtain ⟨_, hcase⟩ := collectStep_some_cases hstep
      rcases hcase with ⟨hnone, rfl⟩ | ⟨l0, hl0, rfl⟩
      · refine ⟨?_, hval, hnd⟩
        intro l
        rw [hmem l]
        constructor
        · rintro (h1 | ⟨c', hc', hl'⟩)
          · exact Or.inl h1
          · exact Or.inr ⟨c', List.mem_cons_of_mem _ hc', hl'⟩
        · rintro (h1 | ⟨c', hc', hl'⟩)
          · exact Or.inl h1
          · rcases List.mem_cons.mp hc' with rfl | hc''
            · rw [hnone] at hl'; cases hl'
            · exact Or.inr ⟨c', hc'', hl'⟩
      · refine ⟨?_, ?_, ?_⟩
        · intro l
          rw [hmem l, GaugeVec.mem_keys_set]
          constructor
          · rintro ((rfl | h1) | ⟨c', hc', hl'⟩)
            · exact Or.inr ⟨c, List.mem_cons_self c cs, hl0⟩
            · exact Or.inl h1
            · exact Or.inr ⟨c', List.mem_cons_of_mem _ hc', hl'⟩
          · rintro (h1 | ⟨c', hc', hl'⟩)
            · exact Or.inl (Or.inr h1)
            · rcases List.mem_cons.mp hc' with rfl | hc''
              · rw [hl0] at hl'
                injection hl' with hl''
                exact Or.inl (Or.inl hl''.symm)
              · exact Or.inr ⟨c', hc'', hl'⟩
        · intro hg p hp
          refine hval ?_ p hp
          intro q hq
          rcases GaugeVec.mem_set_elim hq with hq1 | rfl
          · exact hg q hq1
          · rfl
        · intro hg
          exact hnd (GaugeVec.keys_nodup_set hg l0 1)

/-- When every listed container has at least one name the loop completes. -/
theorem collectLoop_isSome_of_names (env : DockerEnv) (cs : List Container) :
    ∀ g, (∀ c ∈ cs, c.Names ≠ []) → ∃ g', collectLoop env g cs = some g' := by
  induction cs with
  | nil => exact fun g _ => ⟨g, rfl⟩
  | cons c cs ih =>
    intro g hn
    have hc : c.Names ≠ [] := hn c (List.mem_cons_self c cs)
    obtain ⟨n, ns, hns⟩ : ∃ n ns, c.Names = n :: ns := by
      cases hcn : c.Names with
      | nil => exact absurd hcn hc
      | cons n ns => exact ⟨n, ns, rfl⟩
    have hstep : ∃ g1, collectStep env g c = some g1 := by
      unfold collectStep
      rw [hns]
      simp only [List.head?_cons]
      cases env.imageInspect c.Image with
      | none => exact ⟨g, rfl⟩
      | some image => exact ⟨_, rfl⟩
    obtain ⟨g1, hg1⟩ := hstep
    obtain ⟨g', hg'⟩ := ih g1 (fun c' hc' => hn c' (List.mem_cons_of_mem _ hc'))
    refine ⟨g', ?_⟩
    simp only [collectLoop]
    rw [hg1]
    exact hg'

/-- A listed container with an empty name list makes the loop fail (the Go
index panic). -/
theorem collectLoop_none_of_empty_names (env : DockerEnv) (cs : List Container) :
    ∀ g, (∃ c ∈ cs, c.Names = []) → collectLoop env g cs = none := by
  induction cs with
  | nil => intro g h; simp at h
  | cons c cs ih =>
    intro g h
    rcases h with ⟨c', hc', hnames⟩
    rcases List.mem_cons.mp hc' with rfl | hc''
    · simp only [collectLoop]
      have hstep : collectStep env g c' = none := by
        unfold collectStep
        rw [hnames]
        rfl
      rw [hstep]
    · simp only [collectLoop]
      cases hstep : collectStep env g c with
      | none => rfl
      | some g1 => exact ih g1 ⟨c', hc'', hnames⟩

/-! Facts about the file writer. -/

/-- The file writer never touches the in-memory gauge vector. -/
theorem writeMetricsToFile_gauge (wenv : WriteEnv) (path : String) (s : ProcState) :
    ((writeMetricsToFile wenv path s).1).gauge = s.gauge := by
  unfold writeMetricsToFile
  split_ifs <;> rfl

/-- The file writer touches no path other than `<dir>/docker_metrics.prom`. -/
theorem writeMetricsToFile_fs_other (wenv : WriteEnv) (path : String) (s : ProcState)
    (p : String) (hp : p ≠ joinPath path "docker_metrics.prom") :
    ((writeMetricsToFile wenv path s).1).fs.getFile p = s.fs.getFile p := by
  unfold writeMetricsToFile
  split_ifs <;>
    first
      | rfl
      | exact FsState.getFile_setFile_other _ _ _ _ hp

/-! The claims. -/

/-- C1: after a collection cycle whose container listing succeeded, the gauge
vector holds exactly the label combinations of the containers whose image
inspection succeeded, each present exactly once and each with value exactly 1;
combinations of containers not in the current listing do not appear (full
reset before repopulation). -/
theorem collect_success_shape (env : DockerEnv) (g g' : GaugeVec) (cs : List Container)
    (hlist : env.containerList = some cs)
    (hrun : collectDockerMetrics env g = some g') :
    (∀ l, l ∈ g'.keys ↔ ∃ c ∈ cs, labelOf env c = some l) ∧
    g'.keys.Nodup ∧
    (∀ p ∈ g', p.2 = 1) ∧
    (∀ l, (∃ c ∈ cs, labelOf env c = some l) → g'.getVal l = some 1) := by
  unfold collectDockerMetrics at hrun
  rw [hlist] at hrun
  obtain ⟨hmem, hval, hnd⟩ := collectLoop_some_spec env cs g.reset g' hrun
  have hval' : ∀ p ∈ g', p.2 = 1 := hval (by simp [GaugeVec.reset])
  have hmem' : ∀ l, l ∈ g'.keys ↔ ∃ c ∈ cs, labelOf env c = some l := by
    intro l
    rw [hmem l]
    simp [GaugeVec.reset, GaugeVec.keys]
  refine ⟨hmem', hnd (by simp [GaugeVec.reset, GaugeVec.keys]), hval', ?_⟩
  intro l hl
  exact GaugeVec.getVal_eq_one hval' ((hmem' l).mpr hl)

/-- C2: when the container listing fails, the cycle is abandoned with the
gauge vector exactly at its prior state (no reset, no repopulation), and the
driver iteration still completes normally with the gauge unchanged. -/
theorem collect_list_error_keeps_gauge (env : DockerEnv) (s : ProcState)
    (h : env.containerList = none) :
    collectDockerMetrics env s.gauge = some s.gauge ∧
    ∀ cfg wenv, ∃ s' ok, driverCycle cfg env wenv s = some (s', ok) ∧ s'.gauge = s.gauge := by
  have hc : collectDockerMetrics env s.gauge = some s.gauge := by
    unfold collectDockerMetrics
    rw [h]
  refine ⟨hc, ?_⟩
  intro cfg wenv
  by_cases hm : cfg.metricsFilePath = ""
  · refine ⟨{ s with gauge := s.gauge }, true, ?_, rfl⟩
    unfold driverCycle
    rw [hc]
    simp [hm]
  · refine ⟨(writeMetricsToFile wenv cfg.metricsFilePath { s with gauge := s.gauge }).1,
      (writeMetricsToFile wenv cfg.metricsFilePath { s with gauge := s.gauge }).2, ?_, ?_⟩
    · unfold driverCycle
      rw [hc]
      simp [hm]
    · exact writeMetricsToFile_gauge wenv cfg.metricsFilePath { s with gauge := s.gauge }

/-- C3: a failed image inspection of one container contributes no label
combination for it, while every other listed container whose inspection
succeeded still has its combination present with value 1 after the cycle. -/
theorem collect_inspect_failure_isolation (env : DockerEnv) (g g' : GaugeVec)
    (cs : List Container) (c : Container)
    (hlist : env.containerList = some cs)
    (hrun : collectDockerMetrics env g = some g')
    (_hc : c ∈ cs)
    (hfail : env.imageInspect c.Image = none) :
    labelOf env c = none ∧
    ∀ c' ∈ cs, ∀ l, labelOf env c' = some l → g'.getVal l = some 1 := by
  constructor
  · unfold labelOf
    cases hn : c.Names.head? with
    | none => rfl
    | some n => rw [hfail]
  · unfold collectDockerMetrics at hrun
    rw [hlist] at hrun
    obtain ⟨hmem, hval, _⟩ := collectLoop_some_spec env cs g.reset g' hrun
    have hval' : ∀ p ∈ g', p.2 = 1 := hval (by simp [GaugeVec.reset])
    intro c' hc' l hl
    apply GaugeVec.getVal_eq_one hval'
    rw [hmem l]
    exact Or.inr ⟨c', hc', hl⟩

/-- C4: for a container whose image inspection succeeded, the gauge entry
written this cycle carries `image_repo` equal to the first repository tag when
the tag list is non-empty and to the literal `"unknown"` when it is empty. -/
theorem image_repo_label (env : DockerEnv) (g g' : GaugeVec) (cs : List Container)
    (c : Container) (image : ImageInspect) (n : String)
    (hlist : env.containerList = some cs)
    (hrun : collectDockerMetrics env g = some g')
    (hc : c ∈ cs)
    (hn : c.Names.head? = some n)
    (himg : env.imageInspect c.Image = some image) :
    g'.getVal ⟨n, c.ImageID, imageRepoOf image⟩ = some 1 ∧
    (∀ t ts, image.RepoTags = t :: ts → imageRepoOf image = t) ∧
    (image.RepoTags = [] → imageRepoOf image = "unknown") := by
  refine ⟨?_, ?_, ?_⟩
  · unfold collectDockerMetrics at hrun
    rw [hlist] at hrun
    obtain ⟨hmem, hval, _⟩ := collectLoop_some_spec env cs g.reset g' hrun
    have hval' : ∀ p ∈ g', p.2 = 1 := hval (by simp [GaugeVec.reset])
    apply GaugeVec.getVal_eq_one hval'
    rw [hmem]
    refine Or.inr ⟨c, hc, ?_⟩
    unfold labelOf
    rw [hn, himg]
  · intro t ts ht
    unfold imageRepoOf
    rw [ht]
    simp
  · intro ht
    unfold imageRepoOf
    rw [ht]
    simp

/-- C5: the collection cycle is idempotent — a second run against the same
listing and inspection outcomes reproduces the gauge vector of the first. -/
theorem collect_idempotent (env : DockerEnv) (g g1 : GaugeVec)
    (h : collectDockerMetrics env g = some g1) :
    collectDockerMetrics env g1 = some g1 := by
  unfold collectDockerMetrics at h ⊢
  cases hl : env.containerList with
  | none => rfl
  | some cs =>
    rw [hl] at h
    exact h

/-- C6: in file mode, a cycle whose collection and write both succeed leaves
`<dir>/docker_metrics.prom` existing with exactly the text exposition of the
collected gauge vector — the same body HTTP mode would serve for the same
listing. -/
theorem file_mode_exposition (cfg : Config) (env : DockerEnv) (wenv : WriteEnv)
    (s : ProcState) (g1 : GaugeVec) (cs : List Container)
    (hmode : cfg.metricsFilePath ≠ "")
    (_hlist : env.containerList = some cs)
    (hreg : wenv.registerOk = true) (hopen : wenv.openOk = true)
    (hgath : wenv.gatherOk = true) (henc : wenv.encodeOk = true)
    (hcol : collectDockerMetrics env s.gauge = some g1) :
    ∃ s', driverCycle cfg env wenv s = some (s', true) ∧
      s'.gauge = g1 ∧
      s'.fs.getFile (joinPath cfg.metricsFilePath "docker_metrics.prom") =
        some (expositionText s'.gauge) ∧
      httpBody s'.gauge = expositionText s'.gauge := by
  refine ⟨⟨g1, s.fs.setFile (joinPath cfg.metricsFilePath "docker_metrics.prom")
      (expositionText g1)⟩, ?_, rfl, ?_, rfl⟩
  · unfold driverCycle
    rw [hcol]
    unfold writeMetricsToFile
    simp [hmode, hreg, hopen, hgath, henc]
  · exact FsState.getFile_setFile_self s.fs _ _

/-- C7: any failure of the file-publish step is reported as an error
(`false`), leaves the in-memory gauge vector exactly at the value the
collection produced, and the driver loop still proceeds to the remaining
cycles. -/
theorem write_failure_recoverable (cfg : Config) (env : DockerEnv) (wenv : WriteEnv)
    (s : ProcState) (g1 : GaugeVec)
    (hmode : cfg.metricsFilePath ≠ "")
    (hcol : collectDockerMetrics env s.gauge = some g1)
    (hfail : wenv.registerOk = false ∨ wenv.openOk = false ∨ wenv.gatherOk = false ∨
      wenv.encodeOk = false) :
    ∃ s', driverCycle cfg env wenv s = some (s', false) ∧
      s'.gauge = g1 ∧
      ∀ rest, driverRun cfg ((env, wenv) :: rest) s = driverRun cfg rest s' := by
  have hw : (writeMetricsToFile wenv cfg.metricsFilePath { s with gauge := g1 }).2 = false := by
    unfold writeMetricsToFile
    split_ifs <;> simp_all
  have hcycle : driverCycle cfg env wenv s =
      some ((writeMetricsToFile wenv cfg.metricsFilePath { s with gauge := g1 }).1, false) := by
    unfold driverCycle
    rw [hcol]
    simp only [if_neg hmode]
    rw [← hw]
  refine ⟨(writeMetricsToFile wenv cfg.metricsFilePath { s with gauge := g1 }).1, hcycle,
    writeMetricsToFile_gauge wenv cfg.metricsFilePath { s with gauge := g1 }, ?_⟩
  intro rest
  simp only [driverRun]
  rw [hcycle]

/-- C8: publish-mode selection is decided once from `metricsFilePath` and is
mutually exclusive — empty selects the HTTP listener on the configured port
(default `8000`, handler at `/metrics`) and the file step never touches the
filesystem; non-empty selects file mode, starts no HTTP listener, and writes
only to `<dir>/docker_metrics.prom`. -/
theorem publish_mode_selection (cfg : Config) (env : DockerEnv) (wenv : WriteEnv)
    (s s' : ProcState) (ok : Bool)
    (hcycle : driverCycle cfg env wenv s = some (s', ok)) :
    (cfg.metricsFilePath = "" →
      selectMode cfg = Mode.http cfg.port ∧ s'.fs = s.fs ∧ ok = true) ∧
    (cfg.metricsFilePath ≠ "" →
      (∀ pt, selectMode cfg ≠ Mode.http pt) ∧
      selectMode cfg = Mode.file cfg.metricsFilePath ∧
      ∀ p, p ≠ joinPath cfg.metricsFilePath "docker_metrics.prom" →
        s'.fs.getFile p = s.fs.getFile p) ∧
    defaultConfig.port = "8000" ∧ defaultConfig.metricsFilePath = "" ∧
    metricsEndpointPath = "/metrics" := by
  unfold driverCycle at hcycle
  cases hcol : collectDockerMetrics env s.gauge with
  | none => rw [hcol] at hcycle; cases hcycle
  | some g1 =>
    rw [hcol] at hcycle
    have hcycle2 : (if cfg.metricsFilePath = "" then some ({ s with gauge := g1 }, true)
        else some (writeMetricsToFile wenv cfg.metricsFilePath { s with gauge := g1 })) =
        some (s', ok) := hcycle
    refine ⟨?_, ?_, rfl, rfl, rfl⟩
    · intro hm
      rw [if_pos hm] at hcycle2
      injection hcycle2 with hcycle
      rw [Prod.mk.injEq] at hcycle
      obtain ⟨h1, h2⟩ := hcycle
      subst h1
      refine ⟨?_, rfl, h2.symm⟩
      unfold selectMode
      rw [if_pos hm]
    · intro hm
      rw [if_neg hm] at hcycle2
      injection hcycle2 with hcycle
      have hsel : selectMode cfg = Mode.file cfg.metricsFilePath := by
        unfold selectMode
        rw [if_neg hm]
      refine ⟨?_, hsel, ?_⟩
      · intro pt hpt
        rw [hsel] at hpt
        cases hpt
      · intro p hp
        have h1 : (writeMetricsToFile wenv cfg.metricsFilePath { s with gauge := g1 }).1 = s' :=
          congrArg Prod.fst hcycle
        rw [← h1]
        exact writeMetricsToFile_fs_other wenv cfg.metricsFilePath _ p hp

/-- C9: the `container_name` label is the first entry of the container's name
list; when every listed container has at least one name the unguarded index
never fails and the cycle completes, while a listed container with zero names
makes the cycle fail (the Go index panic). -/
theorem container_name_indexing (env : DockerEnv) (g : GaugeVec) (cs : List Container)
    (hlist : env.containerList = some cs) :
    ((∀ c ∈ cs, c.Names ≠ []) → ∃ g', collectDockerMetrics env g = some g') ∧
    ((∃ c ∈ cs, c.Names = []) → collectDockerMetrics env g = none) ∧
    (∀ c image, env.imageInspect c.Image = some image → ∀ n ns, c.Names = n :: ns →
      labelOf env c = some ⟨n, c.ImageID, imageRepoOf image⟩) := by
  refine ⟨?_, ?_, ?_⟩
  · intro hn
    obtain ⟨g', hg'⟩ := collectLoop_isSome_of_names env cs g.reset hn
    refine ⟨g', ?_⟩
    unfold collectDockerMetrics
    rw [hlist]
    exact hg'
  · intro h
    unfold collectDockerMetrics
    rw [hlist]
    exact collectLoop_none_of_empty_names env cs g.reset h
  · intro c image himg n ns hns
    unfold labelOf
    rw [hns]
    simp only [List.head?_cons]
    rw [himg]

/-- C10: the file writer truncates `<dir>/docker_metrics.prom` on open, so a
gather or encode failure after a successful open returns an error yet leaves
the file empty — the previous content is not preserved. -/
theorem write_truncate_on_midway_failure (wenv : WriteEnv) (dir : String) (s : ProcState)
    (old : String)
    (hreg : wenv.registerOk = true) (hopen : wenv.openOk = true)
    (hfail : wenv.gatherOk = false ∨ wenv.encodeOk = false)
    (_hold : s.fs.getFile (joinPath dir "docker_metrics.prom") = some old)
    (hne : old ≠ "") :
    (writeMetricsToFile wenv dir s).2 = false ∧
    ((writeMetricsToFile wenv dir s).1).fs.getFile (joinPath dir "docker_metrics.prom") =
      some "" ∧
    ((writeMetricsToFile wenv dir s).1).fs.getFile (joinPath dir "docker_metrics.prom") ≠
      some old := by
  have hw : writeMetricsToFile wenv dir s =
      ({ s with fs := s.fs.setFile (joinPath dir "docker_metrics.prom") "" }, false) := by
    unfold writeMetricsToFile
    rcases hfail with hfg | hfe
    · simp [hreg, hopen, hfg]
    · cases hg : wenv.gatherOk with
      | false => simp [hreg, hopen, hg]
      | true => simp [hreg, hopen, hg, hfe]
  rw [hw]
  refine ⟨rfl, FsState.getFile_setFile_self s.fs _ _, ?_⟩
  rw [FsState.getFile_setFile_self s.fs _ _]
  intro hcon
  injection hcon with hcon
  exact hne hcon.symm

/-! Concrete cycles instantiating each claim. -/

/-- Inspection outcomes for the C1 cycle: only `nginx:latest` inspects. -/
def wInspectC1 : String → Option ImageInspect := fun r =>
  if r = "nginx:latest" then some { RepoTags := ["nginx:1.25"] } else none

/-- Listing for the C1 cycle: one inspectable container, one that is not. -/
def wCsC1 : List Container :=
  [{ Names := ["/web-1"], ImageID := "sha256:abc", Image := "nginx:latest" },
    { Names := ["/db-1"], ImageID := "sha256:def", Image := "mysql:latest" }]

/-- Environment of the C1 cycle. -/
def wEnvC1 : DockerEnv := { containerList := some wCsC1, imageInspect := wInspectC1 }

/-- Stale gauge state before the C1 cycle. -/
def wG0C1 : GaugeVec := [(⟨"/old-1", "sha256:old", "old:1"⟩, 1)]

/-- Gauge state after the C1 cycle. -/
def wG1C1 : GaugeVec := [(⟨"/web-1", "sha256:abc", "nginx:1.25"⟩, 1)]

/-- Witness for C1 at a concrete two-container cycle with a stale entry. -/
theorem collect_success_shape_witness :
    (wEnvC1.containerList = some wCsC1 ∧
      collectDockerMetrics wEnvC1 wG0C1 = some wG1C1) ∧
    ((∀ l, l ∈ wG1C1.keys ↔ ∃ c ∈ wCsC1, labelOf wEnvC1 c = some l) ∧
      wG1C1.keys.Nodup ∧
      (∀ p ∈ wG1C1, p.2 = 1) ∧
      (∀ l, (∃ c ∈ wCsC1, labelOf wEnvC1 c = some l) → wG1C1.getVal l = some 1)) :=
  ⟨⟨rfl, by decide⟩, collect_success_shape wEnvC1 wG0C1 wG1C1 wCsC1 rfl (by decide)⟩

/-- Environment of the C2 cycle: the listing call fails. -/
def wEnvC2 : DockerEnv := { containerList := none, imageInspect := fun _ => none }

/-- Process state before the C2 cycle, with a populated gauge. -/
def wSC2 : ProcState := { gauge := [(⟨"/web-1", "sha256:abc", "nginx:1.25"⟩, 1)], fs := [] }

/-- Witness for C2 at a concrete failing listing. -/
theorem collect_list_error_keeps_gauge_witness :
    wEnvC2.containerList = none ∧
    (collectDockerMetrics wEnvC2 wSC2.gauge = some wSC2.gauge ∧
      ∀ cfg wenv, ∃ s' ok, driverCycle cfg wEnvC2 wenv wSC2 = some (s', ok) ∧
        s'.gauge = wSC2.gauge) :=
  ⟨rfl, collect_list_error_keeps_gauge wEnvC2 wSC2 rfl⟩

/-- Inspection outcomes for the C3 cycle: `img-b` fails, the others succeed. -/
def wInspectC3 : String → Option ImageInspect := fun r =>
  if r = "img-a" then some { RepoTags := ["a:1"] }
  else if r = "img-c" then some { RepoTags := ["c:1"] }
  else none

/-- The C3 container whose inspection fails. -/
def wCbC3 : Container := { Names := ["/b"], ImageID := "sha256:b", Image := "img-b" }

/-- Listing for the C3 cycle: three containers, the middle one uninspectable. -/
def wCsC3 : List Container :=
  [{ Names := ["/a"], ImageID := "sha256:a", Image := "img-a" }, wCbC3,
    { Names := ["/c"], ImageID := "sha256:c", Image := "img-c" }]

/-- Environment of the C3 cycle. -/
def wEnvC3 : DockerEnv := { containerList := some wCsC3, imageInspect := wInspectC3 }

/-- Gauge state after the C3 cycle: the two inspectable containers. -/
def wG1C3 : GaugeVec :=
  [(⟨"/a", "sha256:a", "a:1"⟩, 1), (⟨"/c", "sha256:c", "c:1"⟩, 1)]

/-- Witness for C3: one of three inspections fails, the other two entries
are still published. -/
theorem collect_inspect_failure_isolation_witness :
    (wEnvC3.containerList = some wCsC3 ∧
      collectDockerMetrics wEnvC3 [] = some wG1C3 ∧
      wCbC3 ∈ wCsC3 ∧
      wEnvC3.imageInspect wCbC3.Image = none) ∧
    (labelOf wEnvC3 wCbC3 = none ∧
      ∀ c' ∈ wCsC3, ∀ l, labelOf wEnvC3 c' = some l → wG1C3.getVal l = some 1) :=
  ⟨⟨rfl, by decide, by decide, rfl⟩,
    collect_inspect_failure_isolation wEnvC3 [] wG1C3 wCsC3 wCbC3 rfl (by decide)
      (by decide) rfl⟩

/-- The C4 image: two repo tags, the first is the expected label. -/
def wImageC4 : ImageInspect := { RepoTags := ["nginx:1.25", "nginx:latest"] }

/-- Inspection outcomes for the C4 cycle. -/
def wInspectC4 : String → Option ImageInspect := fun r =>
  if r = "nginx:latest" then some wImageC4 else none

/-- The C4 container. -/
def wCC4 : Container := { Names := ["/web-1"], ImageID := "sha256:abc", Image := "nginx:latest" }

/-- Environment of the C4 cycle. -/
def wEnvC4 : DockerEnv := { containerList := some [wCC4], imageInspect := wInspectC4 }

/-- Gauge state after the C4 cycle. -/
def wG1C4 : GaugeVec := [(⟨"/web-1", "sha256:abc", "nginx:1.25"⟩, 1)]

/-- Witness for C4 at a concrete tagged image. -/
theorem image_repo_label_witness :
    (wEnvC4.containerList = some [wCC4] ∧
      collectDockerMetrics wEnvC4 [] = some wG1C4 ∧
      wCC4 ∈ [wCC4] ∧
      wCC4.Names.head? = some "/web-1" ∧
      wEnvC4.imageInspect wCC4.Image = some wImageC4) ∧
    (wG1C4.getVal ⟨"/web-1", wCC4.ImageID, imageRepoOf wImageC4⟩ = some 1 ∧
      (∀ t ts, wImageC4.RepoTags = t :: ts → imageRepoOf wImageC4 = t) ∧
      (wImageC4.RepoTags = [] → imageRepoOf wImageC4 = "unknown")) :=
  ⟨⟨rfl, by decide, by decide, rfl, rfl⟩,
    image_repo_label wEnvC4 [] wG1C4 [wCC4] wCC4 wImageC4 "/web-1" rfl (by decide)
      (by decide) rfl rfl⟩

/-- Environment of the C5 cycle: one inspectable container. -/
def wEnvC5 : DockerEnv :=
  { containerList := some [{ Names := ["/web-1"], ImageID := "sha256:abc", Image := "img-w" }],
    imageInspect := fun r => if r = "img-w" then some { RepoTags := ["w:1"] } else none }

/-- Gauge state before the C5 cycle. -/
def wG0C5 : GaugeVec := [(⟨"/stale", "sha256:s", "s:1"⟩, 1)]

/-- Gauge state after the C5 cycle. -/
def wG1C5 : GaugeVec := [(⟨"/web-1", "sha256:abc", "w:1"⟩, 1)]

/-- Witness for C5: a second identical cycle reproduces the same gauge. -/
theorem collect_idempotent_witness :
    collectDockerMetrics wEnvC5 wG0C5 = some wG1C5 ∧
    collectDockerMetrics wEnvC5 wG1C5 = some wG1C5 :=
  ⟨by decide, collect_idempotent wEnvC5 wG0C5 wG1C5 (by decide)⟩

/-- File-mode configuration for the C6 cycle. -/
def wCfgC6 : Config := { port := "8000", metricsFilePath := "/tmp/m" }

/-- Listing for the C6 cycle. -/
def wCsC6 : List Container :=
  [{ Names := ["/web-1"], ImageID := "sha256:abc", Image := "img-w" }]

/-- Environment of the C6 cycle. -/
def wEnvC6 : DockerEnv :=
  { containerList := some wCsC6,
    imageInspect := fun r => if r = "img-w" then some { RepoTags := ["w:1"] } else none }

/-- All write steps succeed in the C6 cycle. -/
def wWenvC6 : WriteEnv := { registerOk := true, openOk := true, gatherOk := true, encodeOk := true }

/-- Process state before the C6 cycle. -/
def wSC6 : ProcState := { gauge := [], fs := [] }

/-- Gauge state collected by the C6 cycle. -/
def wG1C6 : GaugeVec := [(⟨"/web-1", "sha256:abc", "w:1"⟩, 1)]

/-- Witness for C6: one successful file-mode cycle. -/
theorem file_mode_exposition_witness :
    (wCfgC6.metricsFilePath ≠ "" ∧
      wEnvC6.containerList = some wCsC6 ∧
      wWenvC6.registerOk = true ∧ wWenvC6.openOk = true ∧
      wWenvC6.gatherOk = true ∧ wWenvC6.encodeOk = true ∧
      collectDockerMetrics wEnvC6 wSC6.gauge = some wG1C6) ∧
    (∃ s', driverCycle wCfgC6 wEnvC6 wWenvC6 wSC6 = some (s', true) ∧
      s'.gauge = wG1C6 ∧
      s'.fs.getFile (joinPath wCfgC6.metricsFilePath "docker_metrics.prom") =
        some (expositionText s'.gauge) ∧
      httpBody s'.gauge = expositionText s'.gauge) :=
  ⟨⟨by decide, rfl, rfl, rfl, rfl, rfl, by decide⟩,
    file_mode_exposition wCfgC6 wEnvC6 wWenvC6 wSC6 wG1C6 wCsC6 (by decide) rfl rfl rfl
      rfl rfl (by decide)⟩

/-- File-mode configuration for the C7 cycle. -/
def wCfgC7 : Config := { port := "8000", metricsFilePath := "/tmp/m" }

/-- Environment of the C7 cycle. -/
def wEnvC7 : DockerEnv :=
  { containerList := some [{ Names := ["/web-1"], ImageID := "sha256:abc", Image := "img-w" }],
    imageInspect := fun r => if r = "img-w" then some { RepoTags := ["w:1"] } else none }

/-- The C7 write step fails at the open. -/
def wWenvC7 : WriteEnv := { registerOk := true, openOk := false, gatherOk := true, encodeOk := true }

/-- Process state before the C7 cycle. -/
def wSC7 : ProcState := { gauge := [], fs := [] }

/-- Gauge state collected by the C7 cycle. -/
def wG1C7 : GaugeVec := [(⟨"/web-1", "sha256:abc", "w:1"⟩, 1)]

/-- Witness for C7: a cycle whose file open fails still completes. -/
theorem write_failure_recoverable_witness :
    (wCfgC7.metricsFilePath ≠ "" ∧
      collectDockerMetrics wEnvC7 wSC7.gauge = some wG1C7 ∧
      (wWenvC7.registerOk = false ∨ wWenvC7.openOk = false ∨ wWenvC7.gatherOk = false ∨
        wWenvC7.encodeOk = false)) ∧
    (∃ s', driverCycle wCfgC7 wEnvC7 wWenvC7 wSC7 = some (s', false) ∧
      s'.gauge = wG1C7 ∧
      ∀ rest, driverRun wCfgC7 ((wEnvC7, wWenvC7) :: rest) wSC7 = driverRun wCfgC7 rest s') :=
  ⟨⟨by decide, by decide, Or.inr (Or.inl rfl)⟩,
    write_failure_recoverable wCfgC7 wEnvC7 wWenvC7 wSC7 wG1C7 (by decide) (by decide)
      (Or.inr (Or.inl rfl))⟩

/-- Environment of the C8 cycles. -/
def wEnvC8 : DockerEnv :=
  { containerList := some [{ Names := ["/web-1"], ImageID := "sha256:abc", Image := "img-w" }],
    imageInspect := fun r => if r = "img-w" then some { RepoTags := ["w:1"] } else none }

/-- All write steps succeed in the C8 cycles. -/
def wWenvC8 : WriteEnv := { registerOk := true, openOk := true, gatherOk := true, encodeOk := true }

/-- Process state before the C8 cycles. -/
def wSC8 : ProcState := { gauge := [], fs := [] }

/-- Gauge state collected by the C8 cycles. -/
def wG1C8 : GaugeVec := [(⟨"/web-1", "sha256:abc", "w:1"⟩, 1)]

/-- Resulting state of the HTTP-mode C8 cycle: the filesystem is untouched. -/
def wS1C8 : ProcState := { gauge := wG1C8, fs := [] }

/-- File-mode configuration for the second C8 cycle. -/
def wCfgC8 : Config := { port := "9000", metricsFilePath := "/tmp/m" }

/-- Resulting state of the file-mode C8 cycle. -/
def wS2C8 : ProcState :=
  { gauge := wG1C8,
    fs := FsState.setFile [] (joinPath "/tmp/m" "docker_metrics.prom") (expositionText wG1C8) }

/-- Witness for C8: one HTTP-mode cycle and one file-mode cycle. -/
theorem publish_mode_selection_witness :
    (driverCycle defaultConfig wEnvC8 wWenvC8 wSC8 = some (wS1C8, true) ∧
      driverCycle wCfgC8 wEnvC8 wWenvC8 wSC8 = some (wS2C8, true)) ∧
    ((defaultConfig.metricsFilePath = "" →
        selectMode defaultConfig = Mode.http defaultConfig.port ∧
        wS1C8.fs = wSC8.fs ∧ true = true) ∧
      (defaultConfig.metricsFilePath ≠ "" →
        (∀ pt, selectMode defaultConfig ≠ Mode.http pt) ∧
        selectMode defaultConfig = Mode.file defaultConfig.metricsFilePath ∧
        ∀ p, p ≠ joinPath defaultConfig.metricsFilePath "docker_metrics.prom" →
          wS1C8.fs.getFile p = wSC8.fs.getFile p) ∧
      defaultConfig.port = "8000" ∧ defaultConfig.metricsFilePath = "" ∧
      metricsEndpointPath = "/metrics") ∧
    ((wCfgC8.metricsFilePath = "" →
        selectMode wCfgC8 = Mode.http wCfgC8.port ∧
        wS2C8.fs = wSC8.fs ∧ true = true) ∧
      (wCfgC8.metricsFilePath ≠ "" →
        (∀ pt, selectMode wCfgC8 ≠ Mode.http pt) ∧
        selectMode wCfgC8 = Mode.file wCfgC8.metricsFilePath ∧
        ∀ p, p ≠ joinPath wCfgC8.metricsFilePath "docker_metrics.prom" →
          wS2C8.fs.getFile p = wSC8.fs.getFile p) ∧
      defaultConfig.port = "8000" ∧ defaultConfig.metricsFilePath = "" ∧
      metricsEndpointPath = "/metrics") :=
  ⟨⟨rfl, rfl⟩,
    publish_mode_selection defaultConfig wEnvC8 wWenvC8 wSC8 wS1C8 true rfl,
    publish_mode_selection wCfgC8 wEnvC8 wWenvC8 wSC8 wS2C8 true rfl⟩

/-- Listing for the C9 cycle: one normal container and one with zero names. -/
def wCsC9 : List Container :=
  [{ Names := ["/web-1"], ImageID := "sha256:abc", Image := "img-w" },
    { Names := [], ImageID := "sha256:zzz", Image := "img-z" }]

/-- Environment of the C9 cycle. -/
def wEnvC9 : DockerEnv :=
  { containerList := some wCsC9,
    imageInspect := fun r => if r = "img-w" then some { RepoTags := ["w:1"] } else none }

/-- Witness for C9 at a listing that contains a zero-name container. -/
theorem container_name_indexing_witness :
    wEnvC9.containerList = some wCsC9 ∧
    (((∀ c ∈ wCsC9, c.Names ≠ []) → ∃ g', collectDockerMetrics wEnvC9 [] = some g') ∧
      ((∃ c ∈ wCsC9, c.Names = []) → collectDockerMetrics wEnvC9 [] = none) ∧
      (∀ c image, wEnvC9.imageInspect c.Image = some image → ∀ n ns, c.Names = n :: ns →
        labelOf wEnvC9 c = some ⟨n, c.ImageID, imageRepoOf image⟩)) :=
  ⟨rfl, container_name_indexing wEnvC9 [] wCsC9 rfl⟩

/-- The C10 write step fails at the gather, after the truncating open. -/
def wWenvC10 : WriteEnv := { registerOk := true, openOk := true, gatherOk := false, encodeOk := true }

/-- Process state before the C10 write: the metrics file holds old content. -/
def wSC10 : ProcState :=
  { gauge := [], fs := [(joinPath "/tmp/m" "docker_metrics.prom", "old-content")] }

/-- Witness for C10: a gather failure leaves the file truncated empty. -/
theorem write_truncate_on_midway_failure_witness :
    (wWenvC10.registerOk = true ∧ wWenvC10.openOk = true ∧
      (wWenvC10.gatherOk = false ∨ wWenvC10.encodeOk = false) ∧
      wSC10.fs.getFile (joinPath "/tmp/m" "docker_metrics.prom") = some "old-content" ∧
      "old-content" ≠ "") ∧
    ((writeMetricsToFile wWenvC10 "/tmp/m" wSC10).2 = false ∧
      ((writeMetricsToFile wWenvC10 "/tmp/m" wSC10).1).fs.getFile
        (joinPath "/tmp/m" "docker_metrics.prom") = some "" ∧
      ((writeMetricsToFile wWenvC10 "/tmp/m" wSC10).1).fs.getFile
        (joinPath "/tmp/m" "docker_metrics.prom") ≠ some "old-content") :=
  ⟨⟨rfl, rfl, Or.inl rfl, by decide, by decide⟩,
    write_truncate_on_midway_failure wWenvC10 "/tmp/m" wSC10 "old-content" rfl rfl
      (Or.inl rfl) (by decide) (by decide)⟩

end DockerProm
